import Mathlib

/-!
Shallow embedding of the credentials-authentication repository:
the Prisma-backed user store, the NextAuth credentials authorizer
(`authorize` in auth.ts), the jwt/session enrichment callbacks,
the edge middleware (middleware.ts), the registration route handler
(`POST` in the register route), and the credential-login server action
(`doCredentialLogin` in lib/authcontrol.ts).

External collaborators (bcrypt, the Prisma client's fallible calls, the
NextAuth `signIn`) are passed in as oracle parameters; a thrown JavaScript
exception is modelled with `Except Exc`.
-/

/-- Opaque model of a thrown JavaScript exception value. -/
inductive Exc where
  | exc (msg : String)
deriving DecidableEq, Repr

/-- Row of the Prisma `User` table: system-generated id, optional name,
optional unique email, optional stored password hash (schema fields
`emailVerified` and `image` are never read by the code under study and are
omitted). -/
structure User where
  id : String
  name : Option String
  email : Option String
  password : Option String
deriving DecidableEq, Repr

/-- The user table, as the list of its rows. -/
abbrev Db := List User

/-- Model of `prisma.user.findUnique({ where: { email } })`: the row whose
(unique) email column equals the argument. -/
def findUnique (db : Db) (email : String) : Option User :=
  db.find? (fun u => u.email == some email)

/-- Model of `prisma.user.findFirst({ where: { email } })`: first row whose
email column equals the argument. -/
def findFirst (db : Db) (email : String) : Option User :=
  db.find? (fun u => u.email == some email)

/-- Input to the credentials authorizer: JavaScript `null`, or an
email/password pair (the `credentials.email as string` casts). -/
inductive Credentials where
  | null
  | mk (email password : String)
deriving DecidableEq, Repr

/-- JavaScript string truthiness: the empty string is falsy, every other
string truthy; used for the `user.password` guard in `authorize`. -/
def truthyStr (s : String) : Bool := s != ""

/-- The credentials `authorize` callback from auth.ts.

`lookup` models the awaited `prisma.user.findUnique` call and `compare`
models the awaited `bcrypt.compare` call; either may throw (`Except.error`).
The `try/catch` around the body swallows any thrown error and returns
`null` (here `none`), so the result type is `Option User`, never an
exception:

    if (credentials === null) return null;
    try {
      const user = await prisma.user.findUnique({ where: { email } });
      if (user && user.password) {
        const ok = await bcrypt.compare(credentials.password, user.password);
        if (ok) return user;
      }
      return null;
    } catch (error) { return null; }
-/
def authorize (lookup : String → Except Exc (Option User))
    (compare : String → String → Except Exc Bool)
    (credentials : Credentials) : Option User :=
  match credentials with
  | .null => none
  | .mk email password =>
    match lookup email with
    | .error _ => none
    | .ok userOpt =>
      match userOpt with
      | none => none
      | some user =>
        match user.password with
        | none => none
        | some stored =>
          if truthyStr stored then
            match compare password stored with
            | .error _ => none
            | .ok true => some user
            | .ok false => none
          else none

/-- Pure instantiation of the lookup oracle: a `findUnique` over a concrete
user table that does not throw. -/
def dbLookup (db : Db) : String → Except Exc (Option User) :=
  fun email => .ok (findUnique db email)

/-- Pure instantiation of the hash-comparison oracle: a boolean comparison
function that does not throw. -/
def pureCompare (cmp : String → String → Bool) :
    String → String → Except Exc Bool :=
  fun password stored => .ok (cmp password stored)

/-! ## JWT and session enrichment callbacks (auth.ts `callbacks`) -/

/-- The mutable token object seen by the `jwt` callback: the custom `id`
claim (absent until set) plus the standard claims NextAuth put there. -/
structure Token where
  id : Option String
  sub : Option String
  email : Option String
deriving DecidableEq, Repr

/-- The `session.user` object: its `id` field is written by the session
callback. -/
structure SessionUser where
  id : Option String
  name : Option String
  email : Option String
deriving DecidableEq, Repr

/-- The session object seen by the `session` callback; `user` may be
absent. -/
structure Session where
  user : Option SessionUser
  expires : String
deriving DecidableEq, Repr

/-- The `jwt` callback: `if (user) { token.id = user.id; } return token;`.
On initial sign-in `user` is present (`some u`); on refreshes it is absent. -/
def jwt (token : Token) (user : Option User) : Token :=
  match user with
  | some u => { token with id := some u.id }
  | none => token

/-- The `session` callback:
`if (session.user) { session.user.id = token.id; } return session;`. -/
def session (s : Session) (token : Token) : Session :=
  match s.user with
  | some su => { s with user := some { su with id := token.id } }
  | none => s

/-- Iterated token refresh: `n` further invocations of the `jwt` callback
with no user object (the refresh path). -/
def refreshes (t : Token) : Nat → Token
  | 0 => t
  | n + 1 => jwt (refreshes t n) none

/-! ## Edge middleware (middleware.ts) -/

/-- Model of the JavaScript `String.prototype.startsWith`, on the character
sequences of the strings. -/
def jsStartsWith (s p : String) : Bool := p.data.isPrefixOf s.data

/-- A URL as the middleware uses it: origin (scheme, host, port) and
pathname. -/
structure Url where
  origin : String
  pathname : String
deriving DecidableEq, Repr

/-- Model of `new URL(path, base)` for a `path` that is absolute (starts
with `/`): keeps the base's origin, replaces the pathname. -/
def urlResolve (path : String) (base : Url) : Url :=
  { origin := base.origin, pathname := path }

/-- Decoded session payload carried on `req.auth`; its content is opaque to
the middleware, which only tests presence. -/
structure AuthPayload where
  userId : String
deriving DecidableEq, Repr

/-- The request as the middleware reads it: `req.nextUrl`, `req.auth`, and
a representative piece of other request data (the method) the middleware
never consults. -/
structure MiddlewareRequest where
  nextUrl : Url
  auth : Option AuthPayload
  method : String
deriving DecidableEq, Repr

/-- Outcome of the middleware: fall through (`return;`), or an HTTP
redirect to an absolute URL (`Response.redirect(new URL(...))`). -/
inductive MiddlewareResult where
  | passThrough
  | redirect (target : Url)
deriving DecidableEq, Repr

/-- The middleware `auth` callback from middleware.ts:

    const isLoggedIn = !!req.auth;
    const isApiAuthRoute = nextUrl.pathname.startsWith("/api/auth");
    const isPublicRoute = ["/signin", "/signup"].includes(nextUrl.pathname);
    const isProtectedRoute = nextUrl.pathname.startsWith("/dashboard");
    if (isApiAuthRoute) return;
    if (isPublicRoute) {
      if (isLoggedIn) return Response.redirect(new URL("/dashboard", nextUrl));
      return;
    }
    if (isProtectedRoute && !isLoggedIn)
      return Response.redirect(new URL("/signin", nextUrl));
    return;
-/
def middleware (req : MiddlewareRequest) : MiddlewareResult :=
  let nextUrl := req.nextUrl
  let isLoggedIn := req.auth.isSome
  let isApiAuthRoute := jsStartsWith nextUrl.pathname "/api/auth"
  let isPublicRoute := ["/signin", "/signup"].contains nextUrl.pathname
  let isProtectedRoute := jsStartsWith nextUrl.pathname "/dashboard"
  if isApiAuthRoute then
    .passThrough
  else if isPublicRoute then
    if isLoggedIn then .redirect (urlResolve "/dashboard" nextUrl)
    else .passThrough
  else if isProtectedRoute && !isLoggedIn then
    .redirect (urlResolve "/signin" nextUrl)
  else
    .passThrough

/-! ## Registration route handler (`POST /api/auth/register`) -/

/-- The parsed JSON body `{ name, email, password }` of a registration
request. -/
structure RegisterBody where
  name : String
  email : String
  password : String
deriving DecidableEq, Repr

/-- The JSON response of the registration handler together with its HTTP
status. -/
structure RegisterResponse where
  success : Bool
  message : String
  status : Nat
deriving DecidableEq, Repr

/-- The `try` block of the registration handler, with each awaited call
that can throw made explicit. `parse` models `await request.json()` (may
throw on a malformed body), `hash` models `await bcrypt.hash(password, 10)`,
`findExc` and `createExc` inject a store failure at the `findFirst` and
`create` calls, and `genId` is the store-generated id of a created row. The
created row is appended to the table. -/
def POSTtry (parse : Except Exc RegisterBody)
    (hash : String → Nat → Except Exc String)
    (findExc createExc : Option Exc) (genId : String) (db : Db) :
    Except Exc (RegisterResponse × Db) :=
  match parse with
  | .error e => .error e
  | .ok body =>
    match hash body.password 10 with
    | .error e => .error e
    | .ok hashPassword =>
      match findExc with
      | some e => .error e
      | none =>
        match findFirst db body.email with
        | some _ =>
          .ok ({ success := false, message := "Email already exists",
                 status := 401 }, db)
        | none =>
          match createExc with
          | some e => .error e
          | none =>
            .ok ({ success := true, message := "User created successfully",
                   status := 200 },
                 db ++ [{ id := genId, name := some body.name,
                          email := some body.email,
                          password := some hashPassword }])

/-- The registration route handler `POST`: the `try` block above with the
`catch` that turns any thrown error into a generic 500 response and leaves
the store untouched. The result pairs the HTTP response with the user
table after the request. -/
def POST (parse : Except Exc RegisterBody)
    (hash : String → Nat → Except Exc String)
    (findExc createExc : Option Exc) (genId : String) (db : Db) :
    RegisterResponse × Db :=
  match POSTtry parse hash findExc createExc genId db with
  | .ok r => r
  | .error _ =>
    ({ success := false, message := "Something went wrong", status := 500 },
     db)

/-! ## Credential-login server action (lib/authcontrol.ts) -/

/-- A thrown error as classified by `doCredentialLogin`: a NextAuth
`AuthError` carrying its `type` string, or any other exception. -/
inductive JsError where
  | authError (type : String)
  | nonAuth (e : Exc)
deriving DecidableEq, Repr

/-- The structured `{ error }` result the action returns on an auth
failure. -/
structure LoginError where
  error : String
deriving DecidableEq, Repr

/-- What an invocation of the server action does: return a value (the
structured error, or `undefined` on fall-through) or throw. -/
inductive ActionOutcome where
  | returns (r : Option LoginError)
  | throws (e : Exc)
deriving DecidableEq, Repr

/-- The `data` argument of `doCredentialLogin`: a `FormData` (a list of
field/value pairs) or a plain object with `email`/`password` fields. -/
inductive LoginData where
  | formData (fields : List (String × String))
  | obj (email password : String)
deriving DecidableEq, Repr

/-- Model of `FormData.get`: value of the first field with the given name,
or `null`. -/
def formGet (fields : List (String × String)) (key : String) :
    Option String :=
  (fields.find? (fun f => f.1 == key)).map (fun f => f.2)

/-- The email/password extraction at the top of `doCredentialLogin`:
`data.get("email")` / `data.get("password")` for `FormData`, the `email` /
`password` properties otherwise. -/
def extractCreds (data : LoginData) : Option String × Option String :=
  match data with
  | .formData fields => (formGet fields "email", formGet fields "password")
  | .obj email password => (some email, some password)

/-- The server action `doCredentialLogin`. `signInOracle` models the
awaited `signIn("credentials", {...})` call with the extracted credentials;
on a thrown `AuthError` the `switch` on `error.type` maps
`"CredentialsSignin"` to `{ error: "Invalid credentials." }` and everything
else to `{ error: "Something went wrong." }`; any non-`AuthError` exception
is re-thrown (`throw error;`). On normal completion the function returns
`undefined`. -/
def doCredentialLogin
    (signInOracle : Option String → Option String → Except JsError Unit)
    (data : LoginData) : ActionOutcome :=
  let creds := extractCreds data
  match signInOracle creds.1 creds.2 with
  | .ok _ => .returns none
  | .error (.authError t) =>
    if t = "CredentialsSignin" then .returns (some { error := "Invalid credentials." })
    else .returns (some { error := "Something went wrong." })
  | .error (.nonAuth e) => .throws e

/-! ## Helper lemmas -/

/-- Refreshing a token any number of times leaves it unchanged, since the
`jwt` callback with no user object is the identity. -/
theorem refreshes_eq (t : Token) (n : Nat) : refreshes t n = t := by
  induction n with
  | zero => rfl
  | succ n ih => simp [refreshes, jwt, ih]

/-! ## Claims -/

/-- C1: for every stored user found by the email lookup with a stored
(non-empty) password hash, `authorize` returns that user record exactly
when the hash comparison of the submitted password against the stored hash
succeeds, and returns `none` when the comparison fails. -/
theorem authorize_decides_by_compare (db : Db) (cmp : String → String → Bool)
    (email pw : String) (u : User) (h : String)
    (hu : findUnique db email = some u) (hp : u.password = some h)
    (hne : h ≠ "") :
    (authorize (dbLookup db) (pureCompare cmp) (.mk email pw) = some u
      ↔ cmp pw h = true)
    ∧ (cmp pw h = false →
        authorize (dbLookup db) (pureCompare cmp) (.mk email pw) = none) := by
  have ht : truthyStr h = true := by
    simp [truthyStr, hne]
  cases hc : cmp pw h <;>
    simp [authorize, dbLookup, pureCompare, hu, hp, ht, hc]

/-- Witness for C1 at a concrete one-row store and comparison oracle. -/
theorem authorize_decides_by_compare_witness :
    authorize (dbLookup [⟨"u1", some "Alice", some "alice@x.com", some "H1"⟩])
      (pureCompare (fun pw stored => stored == "H" ++ pw))
      (.mk "alice@x.com" "1")
      = some ⟨"u1", some "Alice", some "alice@x.com", some "H1"⟩ :=
  (authorize_decides_by_compare
    [⟨"u1", some "Alice", some "alice@x.com", some "H1"⟩]
    (fun pw stored => stored == "H" ++ pw)
    "alice@x.com" "1"
    ⟨"u1", some "Alice", some "alice@x.com", some "H1"⟩ "H1"
    (by decide) (by decide) (by decide)).1.mpr (by decide)

/-- C2: `authorize` is fail-closed and total: it returns `none` on absent
credentials, on a lookup that finds no row, on a matched row with no stored
hash, and on a thrown lookup or comparison error; its result type
(`Option User`, not an exception monad) shows no exception is ever
propagated, and the last conjunct states that every input yields a plain
returned value. -/
theorem authorize_fail_closed
    (lookup : String → Except Exc (Option User))
    (compare : String → String → Except Exc Bool)
    (email pw : String) :
    authorize lookup compare .null = none
    ∧ (lookup email = .ok none →
        authorize lookup compare (.mk email pw) = none)
    ∧ (∀ u, lookup email = .ok (some u) → u.password = none →
        authorize lookup compare (.mk email pw) = none)
    ∧ (∀ e, lookup email = .error e →
        authorize lookup compare (.mk email pw) = none)
    ∧ (∀ u h e, lookup email = .ok (some u) → u.password = some h →
        compare pw h = .error e →
        authorize lookup compare (.mk email pw) = none)
    ∧ (∀ cred, authorize lookup compare cred = none
        ∨ ∃ u, authorize lookup compare cred = some u) := by
  refine ⟨rfl, ?_, ?_, ?_, ?_, ?_⟩
  · intro h
    simp [authorize, h]
  · intro u hu hp
    simp [authorize, hu, hp]
  · intro e he
    simp [authorize, he]
  · intro u h e hu hp hc
    cases ht : truthyStr h <;> simp [authorize, hu, hp, hc, ht]
  · intro cred
    cases hr : authorize lookup compare cred with
    | none => exact .inl rfl
    | some u => exact .inr ⟨u, rfl⟩

/-- Witness for C2: a lookup oracle that throws yields no match at a
concrete input. -/
theorem authorize_fail_closed_witness :
    authorize (fun _ => .error (.exc "db down")) (fun _ _ => .ok true)
      (.mk "alice@x.com" "pw") = none :=
  (authorize_fail_closed (fun _ => .error (.exc "db down"))
    (fun _ _ => .ok true) "alice@x.com" "pw").2.2.2.1 (.exc "db down") rfl

/-- C7: the `jwt` callback sets the token's `id` claim to the user's id
exactly when the user object is present, leaves the token unchanged on a
refresh, and the `session` callback copies the token's `id` claim into the
session's user-facing id field on every read; composed, any session read
after sign-in and any number of refreshes carries the signed-in user's
id. -/
theorem callbacks_carry_user_id (t : Token) (u : User) (s : Session)
    (su : SessionUser) (n : Nat) :
    (jwt t (some u)).id = some u.id
    ∧ jwt t none = t
    ∧ (s.user = some su →
        (session s t).user = some { su with id := t.id })
    ∧ (s.user = some su →
        (session s (refreshes (jwt t (some u)) n)).user
          = some { su with id := some u.id }) := by
  refine ⟨rfl, rfl, ?_, ?_⟩
  · intro h
    simp [session, h]
  · intro h
    rw [refreshes_eq]
    simp [session, jwt, h]

/-- Witness for C7 at a concrete token, user, session and two refreshes. -/
theorem callbacks_carry_user_id_witness :
    (session ⟨some ⟨none, some "Alice", some "alice@x.com"⟩, "2026-01-01"⟩
        (refreshes (jwt ⟨none, some "sub", some "alice@x.com"⟩
          (some ⟨"u1", some "Alice", some "alice@x.com", some "H1"⟩)) 2)).user
      = some ⟨some "u1", some "Alice", some "alice@x.com"⟩ :=
  (callbacks_carry_user_id ⟨none, some "sub", some "alice@x.com"⟩
    ⟨"u1", some "Alice", some "alice@x.com", some "H1"⟩
    ⟨some ⟨none, some "Alice", some "alice@x.com"⟩, "2026-01-01"⟩
    ⟨none, some "Alice", some "alice@x.com"⟩ 2).2.2.2 rfl

/-- C8: `doCredentialLogin` maps a thrown `AuthError` of type
`CredentialsSignin` to the structured result `{ error: "Invalid
credentials." }`, any other thrown `AuthError` to `{ error: "Something
went wrong." }`, and re-throws every non-`AuthError` exception. -/
theorem doCredentialLogin_error_map
    (signInOracle : Option String → Option String → Except JsError Unit)
    (data : LoginData) :
    (signInOracle (extractCreds data).1 (extractCreds data).2
        = .error (.authError "CredentialsSignin") →
      doCredentialLogin signInOracle data
        = .returns (some { error := "Invalid credentials." }))
    ∧ (∀ t, t ≠ "CredentialsSignin" →
        signInOracle (extractCreds data).1 (extractCreds data).2
          = .error (.authError t) →
        doCredentialLogin signInOracle data
          = .returns (some { error := "Something went wrong." }))
    ∧ (∀ e, signInOracle (extractCreds data).1 (extractCreds data).2
          = .error (.nonAuth e) →
        doCredentialLogin signInOracle data = .throws e) := by
  refine ⟨?_, ?_, ?_⟩
  · intro h
    simp [doCredentialLogin, h]
  · intro t ht h
    simp [doCredentialLogin, h, ht]
  · intro e h
    simp [doCredentialLogin, h]

/-- Witness for C8: a sign-in oracle that throws `CredentialsSignin` on
these credentials yields the invalid-credentials result. -/
theorem doCredentialLogin_error_map_witness :
    doCredentialLogin
      (fun _ _ => .error (.authError "CredentialsSignin"))
      (.obj "alice@x.com" "wrong")
      = .returns (some { error := "Invalid credentials." }) :=
  (doCredentialLogin_error_map
    (fun _ _ => .error (.authError "CredentialsSignin"))
    (.obj "alice@x.com" "wrong")).1 rfl

/-- Membership in the public-route list is equality with one of its two
entries. -/
theorem contains_public (p : String) :
    (["/signin", "/signup"].contains p) = true
      ↔ (p = "/signin" ∨ p = "/signup") := by
  simp [List.contains]

/-- A string of length zero is the empty string. -/
theorem str_len_zero (s : String) (h : s.length = 0) : s = "" := by
  cases s with
  | mk d =>
    rw [String.length_mk] at h
    rw [List.length_eq_zero] at h
    subst h
    rfl

/-- Extensions of the two public routes match neither the auth-API nor the
dashboard path test. -/
theorem public_ext_tests (s : String) :
    jsStartsWith ("/signin" ++ s) "/api/auth" = false
    ∧ jsStartsWith ("/signin" ++ s) "/dashboard" = false
    ∧ jsStartsWith ("/signup" ++ s) "/api/auth" = false
    ∧ jsStartsWith ("/signup" ++ s) "/dashboard" = false := by
  refine ⟨?_, ?_, ?_, ?_⟩ <;> (simp only [jsStartsWith, String.data_append]; rfl)

/-- A proper extension of a public route is not a public route. -/
theorem public_ext_ne (s : String) (h : s ≠ "") :
    ("/signin" ++ s) ≠ "/signin" ∧ ("/signin" ++ s) ≠ "/signup"
    ∧ ("/signup" ++ s) ≠ "/signin" ∧ ("/signup" ++ s) ≠ "/signup" := by
  refine ⟨?_, ?_, ?_, ?_⟩ <;> intro he <;>
    have hl := congrArg String.length he <;>
    rw [String.length_append] at hl
  · exact h (str_len_zero s (by omega))
  · have hs : s = "" := str_len_zero s (by
      have h7 : ("/signin" : String).length = 7 := by decide
      have h7b : ("/signup" : String).length = 7 := by decide
      omega)
    subst hs
    simp at he
  · have hs : s = "" := str_len_zero s (by
      have h7 : ("/signup" : String).length = 7 := by decide
      have h7b : ("/signin" : String).length = 7 := by decide
      omega)
    subst hs
    simp at he
  · exact h (str_len_zero s (by omega))

/-- Any character sequence passing the dashboard path test fails the
auth-API test and equals neither public route's character sequence. -/
theorem dashboard_shape (l : List Char)
    (h : List.isPrefixOf "/dashboard".data l = true) :
    List.isPrefixOf "/api/auth".data l = false
    ∧ l ≠ "/signin".data ∧ l ≠ "/signup".data := by
  match l with
  | [] => simp [List.isPrefixOf] at h
  | [a] => simp [List.isPrefixOf] at h
  | a :: b :: t =>
    simp only [List.isPrefixOf, Bool.and_eq_true, beq_iff_eq] at h
    obtain ⟨ha, hb, _⟩ := h
    subst ha
    subst hb
    refine ⟨rfl, ?_, ?_⟩ <;> intro he <;> simp at he

/-- A path passing the dashboard test fails the auth-API test and is not a
public route. -/
theorem dashboard_path_tests (p : String)
    (h : jsStartsWith p "/dashboard" = true) :
    jsStartsWith p "/api/auth" = false
    ∧ p ≠ "/signin" ∧ p ≠ "/signup" := by
  simp only [jsStartsWith] at h ⊢
  obtain ⟨h1, h2, h3⟩ := dashboard_shape p.data h
  refine ⟨h1, ?_, ?_⟩ <;> intro he <;> subst he
  · exact h2 rfl
  · exact h3 rfl

/-- C3: the middleware follows the routing table with the auth-API check
first: auth-API paths always pass through; otherwise a public route
redirects to the dashboard when a session is present and passes through
otherwise; otherwise a dashboard-prefixed path redirects to sign-in when no
session is present and passes through otherwise; every remaining path
passes through. -/
theorem edge_gate_routing (req : MiddlewareRequest) :
    (jsStartsWith req.nextUrl.pathname "/api/auth" = true →
      middleware req = .passThrough)
    ∧ (jsStartsWith req.nextUrl.pathname "/api/auth" = false →
        (req.nextUrl.pathname = "/signin" ∨ req.nextUrl.pathname = "/signup") →
        (req.auth.isSome = true →
          middleware req = .redirect ⟨req.nextUrl.origin, "/dashboard"⟩)
        ∧ (req.auth.isSome = false → middleware req = .passThrough))
    ∧ (jsStartsWith req.nextUrl.pathname "/api/auth" = false →
        ¬(req.nextUrl.pathname = "/signin" ∨ req.nextUrl.pathname = "/signup") →
        jsStartsWith req.nextUrl.pathname "/dashboard" = true →
        (req.auth.isSome = false →
          middleware req = .redirect ⟨req.nextUrl.origin, "/signin"⟩)
        ∧ (req.auth.isSome = true → middleware req = .passThrough))
    ∧ (jsStartsWith req.nextUrl.pathname "/api/auth" = false →
        ¬(req.nextUrl.pathname = "/signin" ∨ req.nextUrl.pathname = "/signup") →
        jsStartsWith req.nextUrl.pathname "/dashboard" = false →
        middleware req = .passThrough) := by
  obtain ⟨⟨origin, pathname⟩, auth, method⟩ := req
  simp only at *
  refine ⟨?_, ?_, ?_, ?_⟩
  · intro hapi
    simp [middleware, hapi]
  · intro hapi hpub
    rcases hpub with h | h <;> subst h <;> cases auth <;>
      simp [middleware, hapi, urlResolve]
  · intro hapi hpub hdash
    push_neg at hpub
    cases auth <;>
      simp [middleware, hapi, hdash, hpub.1, hpub.2, urlResolve]
  · intro hapi hpub hdash
    push_neg at hpub
    cases auth <;> simp [middleware, hapi, hdash, hpub.1, hpub.2]

/-- Witness for C3: an unauthenticated request to /dashboard is redirected
to /signin on the same origin. -/
theorem edge_gate_routing_witness :
    middleware ⟨⟨"http://localhost:3000", "/dashboard"⟩, none, "GET"⟩
      = .redirect ⟨"http://localhost:3000", "/signin"⟩ :=
  ((edge_gate_routing ⟨⟨"http://localhost:3000", "/dashboard"⟩, none, "GET"⟩
    ).2.2.1 (by decide) (by decide) (by decide)).1 rfl

/-- C9 counterexample: two requests agreeing on the path and on session
presence but differing in origin get different redirect targets, so the
gate's action is not a function of (path, session presence) alone. -/
theorem edge_gate_not_origin_free :
    (MiddlewareRequest.mk ⟨"http://a.example", "/dashboard"⟩ none "GET"
      ).nextUrl.pathname
      = (MiddlewareRequest.mk ⟨"http://b.example", "/dashboard"⟩ none "GET"
        ).nextUrl.pathname
    ∧ (MiddlewareRequest.mk ⟨"http://a.example", "/dashboard"⟩ none "GET"
      ).auth.isSome
      = (MiddlewareRequest.mk ⟨"http://b.example", "/dashboard"⟩ none "GET"
        ).auth.isSome
    ∧ middleware ⟨⟨"http://a.example", "/dashboard"⟩, none, "GET"⟩
      ≠ middleware ⟨⟨"http://b.example", "/dashboard"⟩, none, "GET"⟩ := by
  refine ⟨rfl, rfl, ?_⟩
  decide

/-- C9 amended: the gate is a deterministic pure function of (path, session
presence, request origin): any two requests agreeing on those three produce
the same action, independent of the method, any other request data, and of
the session's content. -/
theorem edge_gate_deterministic (r1 r2 : MiddlewareRequest)
    (hp : r1.nextUrl.pathname = r2.nextUrl.pathname)
    (hs : r1.auth.isSome = r2.auth.isSome)
    (ho : r1.nextUrl.origin = r2.nextUrl.origin) :
    middleware r1 = middleware r2 := by
  simp only [middleware, urlResolve]
  rw [hp, hs, ho]

/-- Witness for C9 amended: same path, origin and session presence but
different method and different session content give the same action. -/
theorem edge_gate_deterministic_witness :
    middleware ⟨⟨"http://localhost:3000", "/signin"⟩, some ⟨"u1"⟩, "GET"⟩
      = middleware
          ⟨⟨"http://localhost:3000", "/signin"⟩, some ⟨"u2"⟩, "POST"⟩ :=
  edge_gate_deterministic
    ⟨⟨"http://localhost:3000", "/signin"⟩, some ⟨"u1"⟩, "GET"⟩
    ⟨⟨"http://localhost:3000", "/signin"⟩, some ⟨"u2"⟩, "POST"⟩
    rfl rfl rfl

/-- C10: public routes are matched by exact equality but protected routes
by prefix: a session-bearing request whose path properly extends a public
route passes through (no dashboard redirect), while a sessionless request
whose path merely starts with "/dashboard" (any extension included) is
redirected to /signin. -/
theorem edge_gate_route_matching (req : MiddlewareRequest) (s : String) :
    (req.auth.isSome = true → s ≠ "" →
      (req.nextUrl.pathname = "/signin" ++ s
        ∨ req.nextUrl.pathname = "/signup" ++ s) →
      middleware req = .passThrough)
    ∧ (req.auth.isSome = false →
        jsStartsWith req.nextUrl.pathname "/dashboard" = true →
        middleware req = .redirect ⟨req.nextUrl.origin, "/signin"⟩) := by
  obtain ⟨⟨origin, pathname⟩, auth, method⟩ := req
  simp only at *
  constructor
  · intro hauth hs hext
    obtain ⟨hne1, hne2, hne3, hne4⟩ := public_ext_ne s hs
    obtain ⟨ht1, ht2, ht3, ht4⟩ := public_ext_tests s
    rcases hext with h | h <;> subst h <;>
      simp [middleware, ht1, ht2, ht3, ht4, hne1, hne2, hne3, hne4, hauth]
  · intro hauth hdash
    obtain ⟨hapi, hne1, hne2⟩ := dashboard_path_tests pathname hdash
    have hc : (["/signin", "/signup"].contains pathname) = false := by
      rw [← Bool.not_eq_true, contains_public]
      rintro (h | h)
      · exact hne1 h
      · exact hne2 h
    cases auth <;> simp_all [middleware, urlResolve]

/-- Witness for C10: with a session, /signin/anything passes through. -/
theorem edge_gate_route_matching_witness :
    middleware ⟨⟨"http://localhost:3000", "/signin/anything"⟩,
        some ⟨"u1"⟩, "GET"⟩
      = .passThrough :=
  (edge_gate_route_matching
    ⟨⟨"http://localhost:3000", "/signin/anything"⟩, some ⟨"u1"⟩, "GET"⟩
    "/anything").1 rfl (by decide) (.inl (by decide))

/-- Registration: a body that fails to parse yields the generic 500 and an
unchanged store. -/
theorem POST_parse_error_eq (hash : String → Nat → Except Exc String)
    (findExc createExc : Option Exc) (genId : String) (db : Db) (e : Exc) :
    POST (.error e) hash findExc createExc genId db
      = ({ success := false, message := "Something went wrong",
           status := 500 }, db) := rfl

/-- Registration: a throwing hash call yields the generic 500 and an
unchanged store. -/
theorem POST_hash_error_eq (hash : String → Nat → Except Exc String)
    (findExc createExc : Option Exc) (genId : String) (db : Db)
    (b : RegisterBody) (e : Exc) (hh : hash b.password 10 = .error e) :
    POST (.ok b) hash findExc createExc genId db
      = ({ success := false, message := "Something went wrong",
           status := 500 }, db) := by
  simp [POST, POSTtry, hh]

/-- Registration: a store failure at the existence check yields the generic
500 and an unchanged store. -/
theorem POST_find_exc_eq (hash : String → Nat → Except Exc String)
    (createExc : Option Exc) (genId : String) (db : Db)
    (b : RegisterBody) (hpw : String) (e : Exc)
    (hh : hash b.password 10 = .ok hpw) :
    POST (.ok b) hash (some e) createExc genId db
      = ({ success := false, message := "Something went wrong",
           status := 500 }, db) := by
  simp [POST, POSTtry, hh]

/-- Registration: a duplicate email yields the 401 duplicate response and
an unchanged store. -/
theorem POST_duplicate_eq (hash : String → Nat → Except Exc String)
    (createExc : Option Exc) (genId : String) (db : Db)
    (b : RegisterBody) (u : User) (hpw : String)
    (hh : hash b.password 10 = .ok hpw)
    (hf : findFirst db b.email = some u) :
    POST (.ok b) hash none createExc genId db
      = ({ success := false, message := "Email already exists",
           status := 401 }, db) := by
  simp [POST, POSTtry, hh, hf]

/-- Registration: a store failure at the insert yields the generic 500 and
an unchanged store. -/
theorem POST_create_exc_eq (hash : String → Nat → Except Exc String)
    (genId : String) (db : Db) (b : RegisterBody) (hpw : String) (e : Exc)
    (hh : hash b.password 10 = .ok hpw)
    (hf : findFirst db b.email = none) :
    POST (.ok b) hash none (some e) genId db
      = ({ success := false, message := "Something went wrong",
           status := 500 }, db) := by
  simp [POST, POSTtry, hh, hf]

/-- Registration: a fresh email yields the 200 success response and appends
exactly the new row with the hashed password. -/
theorem POST_fresh_eq (hash : String → Nat → Except Exc String)
    (genId : String) (db : Db) (b : RegisterBody) (hpw : String)
    (hh : hash b.password 10 = .ok hpw)
    (hf : findFirst db b.email = none) :
    POST (.ok b) hash none none genId db
      = ({ success := true, message := "User created successfully",
           status := 200 },
         db ++ [{ id := genId, name := some b.name, email := some b.email,
                  password := some hpw }]) := by
  simp [POST, POSTtry, hh, hf]

/-- C4: the registration handler answers 401 with the duplicate message and
success=false when a row shares the email, 200 with success=true (after the
insert) when none does, 500 with the generic message on any thrown
exception (parse, hash, or either store call), and no status other than
200, 401 or 500 is possible. -/
theorem register_status_contract (parse : Except Exc RegisterBody)
    (hash : String → Nat → Except Exc String)
    (findExc createExc : Option Exc) (genId : String) (db : Db) :
    ((POST parse hash findExc createExc genId db).1.status = 200
      ∨ (POST parse hash findExc createExc genId db).1.status = 401
      ∨ (POST parse hash findExc createExc genId db).1.status = 500)
    ∧ (∀ b hpw u, parse = .ok b → hash b.password 10 = .ok hpw →
        findExc = none → findFirst db b.email = some u →
        (POST parse hash findExc createExc genId db).1
          = { success := false, message := "Email already exists",
              status := 401 })
    ∧ (∀ b hpw, parse = .ok b → hash b.password 10 = .ok hpw →
        findExc = none → findFirst db b.email = none → createExc = none →
        (POST parse hash findExc createExc genId db).1
          = { success := true, message := "User created successfully",
              status := 200 })
    ∧ (∀ e, parse = .error e →
        (POST parse hash findExc createExc genId db).1
          = { success := false, message := "Something went wrong",
              status := 500 })
    ∧ (∀ b e, parse = .ok b → hash b.password 10 = .error e →
        (POST parse hash findExc createExc genId db).1
          = { success := false, message := "Something went wrong",
              status := 500 })
    ∧ (∀ b hpw e, parse = .ok b → hash b.password 10 = .ok hpw →
        findExc = some e →
        (POST parse hash findExc createExc genId db).1
          = { success := false, message := "Something went wrong",
              status := 500 })
    ∧ (∀ b hpw e, parse = .ok b → hash b.password 10 = .ok hpw →
        findExc = none → findFirst db b.email = none →
        createExc = some e →
        (POST parse hash findExc createExc genId db).1
          = { success := false, message := "Something went wrong",
              status := 500 }) := by
  refine ⟨?_, ?_, ?_, ?_, ?_, ?_, ?_⟩
  · cases parse with
    | error e => rw [POST_parse_error_eq]; right; right; rfl
    | ok b =>
      cases hh : hash b.password 10 with
      | error e => rw [POST_hash_error_eq hash findExc createExc genId db b e hh]; right; right; rfl
      | ok hpw =>
        cases findExc with
        | some e => rw [POST_find_exc_eq hash createExc genId db b hpw e hh]; right; right; rfl
        | none =>
          cases hf : findFirst db b.email with
          | some u => rw [POST_duplicate_eq hash createExc genId db b u hpw hh hf]; right; left; rfl
          | none =>
            cases createExc with
            | some e => rw [POST_create_exc_eq hash genId db b hpw e hh hf]; right; right; rfl
            | none => rw [POST_fresh_eq hash genId db b hpw hh hf]; left; rfl
  · intro b hpw u hp hh hfE hf
    subst hp; subst hfE
    rw [POST_duplicate_eq hash createExc genId db b u hpw hh hf]
  · intro b hpw hp hh hfE hf hcE
    subst hp; subst hfE; subst hcE
    rw [POST_fresh_eq hash genId db b hpw hh hf]
  · intro e hp
    subst hp
    rw [POST_parse_error_eq]
  · intro b e hp hh
    subst hp
    rw [POST_hash_error_eq hash findExc createExc genId db b e hh]
  · intro b hpw e hp hh hfE
    subst hp; subst hfE
    rw [POST_find_exc_eq hash createExc genId db b hpw e hh]
  · intro b hpw e hp hh hfE hf hcE
    subst hp; subst hfE; subst hcE
    rw [POST_create_exc_eq hash genId db b hpw e hh hf]

/-- Witness for C4: registering an email that a stored row already uses
answers 401 with the duplicate message. -/
theorem register_status_contract_witness :
    (POST (.ok ⟨"Bob", "alice@x.com", "pw"⟩)
      (fun p _ => .ok ("h:" ++ p)) none none "u2"
      [⟨"u1", some "Alice", some "alice@x.com", some "H1"⟩]).1
      = { success := false, message := "Email already exists",
          status := 401 } :=
  (register_status_contract (.ok ⟨"Bob", "alice@x.com", "pw"⟩)
    (fun p _ => .ok ("h:" ++ p)) none none "u2"
    [⟨"u1", some "Alice", some "alice@x.com", some "H1"⟩]).2.1
    ⟨"Bob", "alice@x.com", "pw"⟩ "h:pw"
    ⟨"u1", some "Alice", some "alice@x.com", some "H1"⟩
    rfl rfl rfl (by decide)

/-- C5: a registration whose email matches an existing row performs no
insert and no update: whatever the hash oracle and injected store faults
do, the store after the request equals the store before it. -/
theorem register_duplicate_no_write (parse : Except Exc RegisterBody)
    (hash : String → Nat → Except Exc String)
    (findExc createExc : Option Exc) (genId : String) (db : Db)
    (b : RegisterBody) (u : User)
    (hp : parse = .ok b) (hf : findFirst db b.email = some u) :
    (POST parse hash findExc createExc genId db).2 = db := by
  subst hp
  cases hh : hash b.password 10 with
  | error e => rw [POST_hash_error_eq hash findExc createExc genId db b e hh]
  | ok hpw =>
    cases findExc with
    | some e => rw [POST_find_exc_eq hash createExc genId db b hpw e hh]
    | none => rw [POST_duplicate_eq hash createExc genId db b u hpw hh hf]

/-- Witness for C5 at a concrete one-row store and duplicate email. -/
theorem register_duplicate_no_write_witness :
    (POST (.ok ⟨"Bob", "alice@x.com", "pw"⟩)
      (fun p _ => .ok ("h:" ++ p)) none none "u2"
      [⟨"u1", some "Alice", some "alice@x.com", some "H1"⟩]).2
      = [⟨"u1", some "Alice", some "alice@x.com", some "H1"⟩] :=
  register_duplicate_no_write (.ok ⟨"Bob", "alice@x.com", "pw"⟩)
    (fun p _ => .ok ("h:" ++ p)) none none "u2"
    [⟨"u1", some "Alice", some "alice@x.com", some "H1"⟩]
    ⟨"Bob", "alice@x.com", "pw"⟩
    ⟨"u1", some "Alice", some "alice@x.com", some "H1"⟩
    rfl (by decide)

/-- C6: a registration with a previously unused email inserts exactly one
row, its stored password field is the hash of the submitted password at
cost factor 10, and (whenever the hash differs from the plaintext, as a
bcrypt hash always does) the stored field is not the submitted
plaintext. -/
theorem register_fresh_stores_hash (hash : String → Nat → Except Exc String)
    (genId : String) (db : Db) (b : RegisterBody) (hpw : String)
    (hh : hash b.password 10 = .ok hpw)
    (hf : findFirst db b.email = none) :
    (POST (.ok b) hash none none genId db).2
      = db ++ [{ id := genId, name := some b.name, email := some b.email,
                 password := some hpw }]
    ∧ (User.mk genId (some b.name) (some b.email) (some hpw)).password
        = some hpw
    ∧ (hpw ≠ b.password →
        (User.mk genId (some b.name) (some b.email) (some hpw)).password
          ≠ some b.password) := by
  refine ⟨?_, rfl, ?_⟩
  · rw [POST_fresh_eq hash genId db b hpw hh hf]
  · intro hne he
    exact hne (Option.some.inj he)

/-- Witness for C6: registering a fresh email appends the hashed row. -/
theorem register_fresh_stores_hash_witness :
    (POST (.ok ⟨"Bob", "bob@x.com", "pw"⟩)
      (fun p _ => .ok ("h:" ++ p)) none none "u2"
      [⟨"u1", some "Alice", some "alice@x.com", some "H1"⟩]).2
      = [⟨"u1", some "Alice", some "alice@x.com", some "H1"⟩,
         ⟨"u2", some "Bob", some "bob@x.com", some "h:pw"⟩] :=
  (register_fresh_stores_hash (fun p _ => .ok ("h:" ++ p)) "u2"
    [⟨"u1", some "Alice", some "alice@x.com", some "H1"⟩]
    ⟨"Bob", "bob@x.com", "pw"⟩ "h:pw" rfl (by decide)).1
